import Mathlib

/-!
Shallow embedding of `src/app.py` (Solar Power Predictor, a Streamlit app).

Modelling conventions:
- Python floats are modelled as exact rationals (ℚ); the numeric literals
  0.3, 1.2, 3_600_000, 1000, 8 of the source become the rationals 3/10,
  12/10, 3600000, 1000, 8.
- Python ints are modelled as ℤ.
- A raised Python exception is modelled as the `Except.error` branch of
  `Except PyExc`.  A `PyExc` records its message and whether its class
  derives from `Exception` (as opposed to deriving only from
  `BaseException`, as `KeyboardInterrupt` and `SystemExit` do): a Python
  `except Exception` clause catches exactly those with
  `derivesException = true`.
- The scaler and the model are opaque duck-typed objects (`PyObject`)
  exposing `transform` and `predict`; both may raise.
- `joblib.load` is modelled as an abstract fallible function from the file
  name to a loaded object, passed in as a parameter `loadFile`.
-/

/-- A Python exception: its rendered message, and whether its class derives
from `Exception` (`true` for `FileNotFoundError`, unpickling errors, and
every other ordinary exception; `false` for exceptions deriving only from
`BaseException`, such as `KeyboardInterrupt`). -/
structure PyExc where
  message : String
  derivesException : Bool
deriving Repr, DecidableEq

/-- The six form fields of `app.py` lines 177-205: the sliders, number
input and selectbox of the input form.  Field order matches the order in
which the widgets appear in the source. -/
structure PredictionRequest where
  distance_to_solar_noon : ℚ
  temperature : ℚ
  sky_cover : ℤ
  visibility : ℚ
  humidity : ℤ
  wind_speed : ℚ
deriving Repr, DecidableEq

/-- An opaque duck-typed Python object as loaded by `joblib.load`: it may
expose `transform` (used on the object loaded from `scaler.pkl`) and
`predict` (used on the object loaded from `model.pkl`).  `transform`
receives the single-row DataFrame (rows of named columns) and returns rows
of numbers; `predict` receives those rows and returns an array of
predictions.  Either may raise. -/
structure PyObject where
  transform : List (List (String × ℚ)) → Except PyExc (List (List ℚ))
  predict : List (List ℚ) → Except PyExc (List ℚ)

/-- `app.py` lines 213-220: the single-row `pd.DataFrame` built from the six
form values, one row, columns in exactly the written order. -/
def input_df (r : PredictionRequest) : List (List (String × ℚ)) :=
  [[("distance_to_solar_noon", r.distance_to_solar_noon),
    ("temperature", r.temperature),
    ("sky_cover", (r.sky_cover : ℚ)),
    ("visibility", r.visibility),
    ("humidity", (r.humidity : ℚ)),
    ("wind_speed", r.wind_speed)]]

/-- `app.py` lines 229-237: the condition label and its colour hint, decided
by the if/elif/else chain on `sky_cover` and `distance_to_solar_noon`. -/
def conditionAndColor (sky_cover : ℤ) (distance_to_solar_noon : ℚ) :
    String × String :=
  if sky_cover = 0 ∧ distance_to_solar_noon < 3/10 then
    ("🌟 Ideal Solar Conditions", "#ffd200")
  else if sky_cover ≥ 3 ∨ distance_to_solar_noon > 12/10 then
    ("🌑 Low Solar Output Expected", "#8884a8")
  else
    ("⛅ Moderate Solar Conditions", "#f7971e")

/-- The `IndexError` raised by `model.predict(...)[0]` when the prediction
array is empty (never happens for a well-formed model, but the indexing is
part of the source). -/
def indexError : PyExc :=
  { message := "IndexError: index 0 is out of bounds for axis 0 with size 0"
    derivesException := true }

/-- `app.py` line 274: the error shown when predict is clicked while the
artifacts failed to load. -/
def modelNotFoundMsg : String :=
  "Model files not found. Please check that `model.pkl` and `scaler.pkl` are in the same directory."

/-- What the predict branch of `app.py` (lines 212-274) renders. -/
inductive RenderOutcome where
  /-- Lines 239-261: the result box, carrying the condition label and colour
  hint, the raw prediction, and the three derived values rendered in the
  metric cards (`kwh`, `prediction/1000`, `kwh * 8`). -/
  | resultBox (condition color_hint : String) (prediction kwhVal kjVal kwhDayVal : ℚ)
  /-- Line 274: the error box shown when the model is not loaded. -/
  | errorBox (msg : String)
  /-- Neither branch ran (the button was not clicked). -/
  | nothing
deriving Repr, DecidableEq

/-- `app.py` lines 212-274: the predict-button handler.  When the button was
clicked and the artifacts loaded, it builds `input_df`, applies
`scaler.transform`, applies `model.predict`, takes element `[0]`, computes
`kwh = prediction / 3_600_000`, decides the condition label, and renders the
result box (which also shows `prediction/1000` and `kwh * 8`).  There is no
try/except in this branch: any exception raised by `transform` or `predict`
propagates out as `Except.error`.  When the button was clicked but the
artifacts are not loaded, it renders the not-found error box without
touching the scaler or the model. -/
def predictStep (predict_clicked model_loaded : Bool)
    (model scaler : PyObject) (r : PredictionRequest) :
    Except PyExc RenderOutcome :=
  if predict_clicked && model_loaded then
    match scaler.transform (input_df r) with
    | Except.error e => Except.error e
    | Except.ok input_scaled =>
      match model.predict input_scaled with
      | Except.error e => Except.error e
      | Except.ok preds =>
        match preds with
        | [] => Except.error indexError
        | prediction :: _ =>
          let kwh := prediction / 3600000
          let cc := conditionAndColor r.sky_cover r.distance_to_solar_noon
          Except.ok (RenderOutcome.resultBox cc.1 cc.2 prediction kwh
            (prediction / 1000) (kwh * 8))
  else if predict_clicked && !model_loaded then
    Except.ok (RenderOutcome.errorBox modelNotFoundMsg)
  else
    Except.ok RenderOutcome.nothing

/-- `app.py` lines 150-153: `load_artifacts` loads `model.pkl` first, then
`scaler.pkl`, and returns the pair `(model, scaler)` in that order.
Polymorphic in the artifact type so the order of the components can be
observed directly. -/
def load_artifacts {α : Type} (loadFile : String → Except PyExc α) :
    Except PyExc (α × α) :=
  match loadFile "model.pkl" with
  | Except.error e => Except.error e
  | Except.ok model =>
    match loadFile "scaler.pkl" with
    | Except.error e => Except.error e
    | Except.ok scaler => Except.ok (model, scaler)

/-- Instrumented shadow of `load_artifacts` that also records which files it
attempted to load, in order.  Used to state that no load is retried. -/
def load_artifacts_calls {α : Type} (loadFile : String → Except PyExc α) :
    List String × Except PyExc (α × α) :=
  match loadFile "model.pkl" with
  | Except.error e => (["model.pkl"], Except.error e)
  | Except.ok model =>
    match loadFile "scaler.pkl" with
    | Except.error e => (["model.pkl", "scaler.pkl"], Except.error e)
    | Except.ok scaler => (["model.pkl", "scaler.pkl"], Except.ok (model, scaler))

/-- `app.py` line 160: the message rendered by `st.error` when loading the
artifacts raised `e`. -/
def loadErrorMsg (e : PyExc) : String :=
  "⚠️ Could not load model files: " ++ e.message ++
    "\n\nMake sure `model.pkl` and `scaler.pkl` are in the same folder as `app.py`."

/-- The state the top of `app.py` leaves behind after the try/except at
lines 155-160: the `model_loaded` flag, the loaded `(model, scaler)` pair
when the load succeeded, and the error message rendered when it failed. -/
structure AppInit where
  model_loaded : Bool
  artifacts : Option (PyObject × PyObject)
  errorShown : Option String

/-- `app.py` lines 155-160: call `load_artifacts` once inside
`try ... except Exception as e`.  On success set `model_loaded = True`; on an
`Exception`-derived failure set `model_loaded = False` and render the error
message.  An exception that does not derive from `Exception` (for example
`KeyboardInterrupt`) is not matched by the `except Exception` clause and
propagates, crashing the script run. -/
def appInit (loadFile : String → Except PyExc PyObject) :
    Except PyExc AppInit :=
  match load_artifacts loadFile with
  | Except.ok ms => Except.ok ⟨true, some ms, none⟩
  | Except.error e =>
    if e.derivesException then
      Except.ok ⟨false, none, some (loadErrorMsg e)⟩
    else
      Except.error e

/-- The form defaults of `app.py` lines 177-205: distance 0.3, temperature
25.0, sky cover 0, visibility 10.0, humidity 45, wind speed 3.5. -/
def defaultRequest : PredictionRequest :=
  ⟨3/10, 25, 0, 10, 45, 7/2⟩

/-- A concrete well-behaved scaler object: strips the column names and
raises nothing. -/
def demoScaler : PyObject :=
  ⟨fun df => Except.ok (df.map (List.map Prod.snd)), fun _ => Except.ok []⟩

/-- A concrete model object whose prediction array is `[-5]`: a negative
raw prediction, used to observe that no clamping happens. -/
def demoModel : PyObject :=
  ⟨fun df => Except.ok (df.map (List.map Prod.snd)), fun _ => Except.ok [-5]⟩

/-- Inversion of a successful run of the predict branch: when the handler
rendered a result box, `scaler.transform` and `model.predict` both
succeeded, the rendered prediction is element `[0]` of the prediction
array, the label and colour come from `conditionAndColor` on the request
fields, and the metric values are exactly the arithmetic of lines 226,
248, 252 and 256. -/
theorem predictStep_resultBox_inv (m s : PyObject) (r : PredictionRequest)
    (c h : String) (p k kj kd : ℚ)
    (hrun : predictStep true true m s r =
      Except.ok (RenderOutcome.resultBox c h p k kj kd)) :
    ∃ t ps, s.transform (input_df r) = Except.ok t ∧
      m.predict t = Except.ok (p :: ps) ∧
      c = (conditionAndColor r.sky_cover r.distance_to_solar_noon).1 ∧
      h = (conditionAndColor r.sky_cover r.distance_to_solar_noon).2 ∧
      k = p / 3600000 ∧ kj = p / 1000 ∧ kd = p / 3600000 * 8 := by
  unfold predictStep at hrun
  rcases hT : s.transform (input_df r) with e | t
  · simp [hT] at hrun
  · rcases hP : m.predict t with e | preds
    · simp [hT, hP] at hrun
    · rcases preds with _ | ⟨p0, ps⟩
      · simp [hT, hP] at hrun
      · simp [hT, hP] at hrun
        obtain ⟨hc, hh, hp, hk, hkj, hkd⟩ := hrun
        subst hp
        exact ⟨t, ps, rfl, hP, hc.symm, hh.symm, hk.symm, hkj.symm, hkd.symm⟩

/-- C1: the condition label is decided by the exact priority order of
`app.py` lines 229-237 (first match wins): IDEAL if `sky_cover == 0` and
`distance_to_solar_noon < 0.3`; else LOW if `sky_cover >= 3` or
`distance_to_solar_noon > 1.2`; else MODERATE.  At `sky_cover = 0`,
`distance_to_solar_noon = 0.3` the label is not IDEAL, and the label of any
successful run depends only on the two request fields, never on the model's
prediction (two runs with the same request but arbitrary different
artifacts get the same label). -/
theorem condition_label_priority_and_independence
    (m s : PyObject) (r : PredictionRequest) (c h : String) (p k kj kd : ℚ)
    (hrun : predictStep true true m s r =
      Except.ok (RenderOutcome.resultBox c h p k kj kd)) :
    (r.sky_cover = 0 ∧ r.distance_to_solar_noon < 3/10 →
      c = "🌟 Ideal Solar Conditions") ∧
    (¬(r.sky_cover = 0 ∧ r.distance_to_solar_noon < 3/10) →
      (r.sky_cover ≥ 3 ∨ r.distance_to_solar_noon > 12/10) →
      c = "🌑 Low Solar Output Expected") ∧
    (¬(r.sky_cover = 0 ∧ r.distance_to_solar_noon < 3/10) →
      ¬(r.sky_cover ≥ 3 ∨ r.distance_to_solar_noon > 12/10) →
      c = "⛅ Moderate Solar Conditions") ∧
    (r.sky_cover = 0 → r.distance_to_solar_noon = 3/10 →
      c ≠ "🌟 Ideal Solar Conditions") ∧
    (∀ m2 s2 : PyObject, ∀ c2 h2 : String, ∀ p2 k2 kj2 kd2 : ℚ,
      predictStep true true m2 s2 r =
        Except.ok (RenderOutcome.resultBox c2 h2 p2 k2 kj2 kd2) → c2 = c) := by
  obtain ⟨t, ps, hT, hP, hc, hh, hk, hkj, hkd⟩ :=
    predictStep_resultBox_inv m s r c h p k kj kd hrun
  subst hc
  refine ⟨?_, ?_, ?_, ?_, ?_⟩
  · intro hI; unfold conditionAndColor; rw [if_pos hI]
  · intro hI hL; unfold conditionAndColor; rw [if_neg hI, if_pos hL]
  · intro hI hL; unfold conditionAndColor; rw [if_neg hI, if_neg hL]
  · intro h0 hd
    unfold conditionAndColor
    rw [if_neg (fun hx => absurd (hd ▸ hx.2) (lt_irrefl _))]
    by_cases hL : r.sky_cover ≥ 3 ∨ r.distance_to_solar_noon > 12/10
    · rw [if_pos hL]; decide
    · rw [if_neg hL]; decide
  · intro m2 s2 c2 h2 p2 k2 kj2 kd2 hrun2
    obtain ⟨t2, ps2, _, _, hc2, _⟩ :=
      predictStep_resultBox_inv m2 s2 r c2 h2 p2 k2 kj2 kd2 hrun2
    exact hc2

/-- Witness for C1: at the form defaults (`sky_cover = 0`,
`distance_to_solar_noon = 0.3`) a concrete successful run gets the
MODERATE label (in particular not IDEAL, as the boundary case requires). -/
theorem condition_label_priority_and_independence_witness :
    (conditionAndColor defaultRequest.sky_cover
      defaultRequest.distance_to_solar_noon).1 =
      "⛅ Moderate Solar Conditions" :=
  (condition_label_priority_and_independence demoModel demoScaler defaultRequest
      (conditionAndColor defaultRequest.sky_cover
        defaultRequest.distance_to_solar_noon).1
      (conditionAndColor defaultRequest.sky_cover
        defaultRequest.distance_to_solar_noon).2
      (-5) (-5 / 3600000) (-5 / 1000) (-5 / 3600000 * 8) rfl).2.2.1
    (by norm_num [defaultRequest]) (by norm_num [defaultRequest])

/-- C2: when the scaler and the model both succeed, the rendered raw
prediction is exactly element `[0]` of `model.predict` applied to
`scaler.transform` of the assembled record, with no clamping or rejection:
whatever scalar `p` the model emits (negative included) is rendered
as-is. -/
theorem prediction_is_first_model_output_unclamped
    (m s : PyObject) (r : PredictionRequest) (t : List (List ℚ))
    (p : ℚ) (ps : List ℚ)
    (hT : s.transform (input_df r) = Except.ok t)
    (hP : m.predict t = Except.ok (p :: ps)) :
    predictStep true true m s r =
      Except.ok (RenderOutcome.resultBox
        (conditionAndColor r.sky_cover r.distance_to_solar_noon).1
        (conditionAndColor r.sky_cover r.distance_to_solar_noon).2
        p (p / 3600000) (p / 1000) (p / 3600000 * 8)) := by
  unfold predictStep
  simp [hT, hP]

/-- Witness for C2: a concrete model emitting the negative prediction `-5`
has it rendered as-is. -/
theorem prediction_is_first_model_output_unclamped_witness :
    predictStep true true demoModel demoScaler defaultRequest =
      Except.ok (RenderOutcome.resultBox
        (conditionAndColor defaultRequest.sky_cover
          defaultRequest.distance_to_solar_noon).1
        (conditionAndColor defaultRequest.sky_cover
          defaultRequest.distance_to_solar_noon).2
        (-5) (-5 / 3600000) (-5 / 1000) (-5 / 3600000 * 8)) :=
  prediction_is_first_model_output_unclamped demoModel demoScaler defaultRequest
    ((input_df defaultRequest).map (List.map Prod.snd)) (-5) [] rfl rfl

/-- The exception raised by a concrete scaler whose `transform` rejects its
input (for example a record-shape mismatch). -/
def schemaError : PyExc :=
  { message := "ValueError: X has a different shape than during fitting"
    derivesException := true }

/-- A concrete scaler object whose `transform` always raises. -/
def raisingScaler : PyObject :=
  ⟨fun _ => Except.error schemaError, fun _ => Except.ok []⟩

/-- C3: the assembled record is a single row whose six columns appear in
exactly the order distance_to_solar_noon, temperature, sky_cover,
visibility, humidity, wind_speed; and the predict branch hands exactly this
record to `scaler.transform` with no schema check in between (whatever the
scaler raises on it propagates directly out of the handler). -/
theorem input_record_single_row_fixed_order
    (r : PredictionRequest) (m s : PyObject) (e0 : PyExc)
    (hT : s.transform (input_df r) = Except.error e0) :
    (input_df r).length = 1 ∧
    (input_df r).map (List.map Prod.fst) =
      [["distance_to_solar_noon", "temperature", "sky_cover",
        "visibility", "humidity", "wind_speed"]] ∧
    predictStep true true m s r = Except.error e0 := by
  refine ⟨rfl, rfl, ?_⟩
  unfold predictStep
  simp [hT]

/-- Witness for C3: the concrete raising scaler observes the record's
single row, its column order, and the absence of any schema check before
`transform`. -/
theorem input_record_single_row_fixed_order_witness :
    (input_df defaultRequest).length = 1 ∧
    (input_df defaultRequest).map (List.map Prod.fst) =
      [["distance_to_solar_noon", "temperature", "sky_cover",
        "visibility", "humidity", "wind_speed"]] ∧
    predictStep true true demoModel raisingScaler defaultRequest =
      Except.error schemaError :=
  input_record_single_row_fixed_order defaultRequest demoModel raisingScaler
    schemaError rfl

/-- C4: on every successful run the derived presentation values are
computed as `kwh = prediction / 3_600_000` (line 226),
`kilojoules = prediction / 1000` (line 252) and
`kwh_per_day = kwh * 8` (line 256), with no rounding inside the core
computation (the rendered rationals are exactly these quotients). -/
theorem derived_values_formulas
    (m s : PyObject) (r : PredictionRequest) (c h : String) (p k kj kd : ℚ)
    (hrun : predictStep true true m s r =
      Except.ok (RenderOutcome.resultBox c h p k kj kd)) :
    k = p / 3600000 ∧ kj = p / 1000 ∧ kd = k * 8 := by
  obtain ⟨t, ps, _, _, _, _, hk, hkj, hkd⟩ :=
    predictStep_resultBox_inv m s r c h p k kj kd hrun
  exact ⟨hk, hkj, by rw [hk, hkd]⟩

/-- Witness for C4: the derived-value formulas evaluated on a concrete run
with raw prediction `-5`. -/
theorem derived_values_formulas_witness :
    (-5 / 3600000 : ℚ) = -5 / 3600000 ∧ (-5 / 1000 : ℚ) = -5 / 1000 ∧
    (-5 / 3600000 * 8 : ℚ) = -5 / 3600000 * 8 :=
  derived_values_formulas demoModel demoScaler defaultRequest
    (conditionAndColor defaultRequest.sky_cover
      defaultRequest.distance_to_solar_noon).1
    (conditionAndColor defaultRequest.sky_cover
      defaultRequest.distance_to_solar_noon).2
    (-5) (-5 / 3600000) (-5 / 1000) (-5 / 3600000 * 8) rfl

/-- C5: on every successful run the unit-conversion round trips hold
exactly over the exact-rational model of the arithmetic:
`kilojoules * 1000 = raw` and `kwh_equivalent * 3_600_000 = raw` (the
latter is exact here, hence in particular within any floating-point
tolerance). -/
theorem unit_conversion_round_trip
    (m s : PyObject) (r : PredictionRequest) (c h : String) (p k kj kd : ℚ)
    (hrun : predictStep true true m s r =
      Except.ok (RenderOutcome.resultBox c h p k kj kd)) :
    kj * 1000 = p ∧ k * 3600000 = p := by
  obtain ⟨t, ps, _, _, _, _, hk, hkj, _⟩ :=
    predictStep_resultBox_inv m s r c h p k kj kd hrun
  subst hk hkj
  constructor
  · exact div_mul_cancel₀ p (by norm_num)
  · exact div_mul_cancel₀ p (by norm_num)

/-- Witness for C5: the round trips on a concrete run with raw
prediction `-5`. -/
theorem unit_conversion_round_trip_witness :
    (-5 / 1000 : ℚ) * 1000 = -5 ∧ (-5 / 3600000 : ℚ) * 3600000 = -5 :=
  unit_conversion_round_trip demoModel demoScaler defaultRequest
    (conditionAndColor defaultRequest.sky_cover
      defaultRequest.distance_to_solar_noon).1
    (conditionAndColor defaultRequest.sky_cover
      defaultRequest.distance_to_solar_noon).2
    (-5) (-5 / 3600000) (-5 / 1000) (-5 / 3600000 * 8) rfl

/-- C9: the predict handler is a pure function of the request and the
loaded artifacts: two invocations with identical request field values and
identical artifacts produce identical results (raw prediction, all derived
values and the condition label included). -/
theorem predict_deterministic (clicked loaded : Bool) (m s : PyObject)
    (r1 r2 : PredictionRequest) (hr : r1 = r2) :
    predictStep clicked loaded m s r1 = predictStep clicked loaded m s r2 := by
  rw [hr]

/-- Witness for C9: determinism at a concrete request and concrete
artifacts. -/
theorem predict_deterministic_witness :
    predictStep true true demoModel demoScaler defaultRequest =
      predictStep true true demoModel demoScaler defaultRequest :=
  predict_deterministic true true demoModel demoScaler defaultRequest
    defaultRequest rfl

/-- A missing-artifact exception: `FileNotFoundError` derives from
`Exception`, so the `except Exception` clause catches it. -/
def fileNotFound : PyExc :=
  { message := "FileNotFoundError: No such file or directory: model.pkl"
    derivesException := true }

/-- A concrete `joblib.load` stand-in for which every file is missing. -/
def missingLoad : String → Except PyExc PyObject :=
  fun _ => Except.error fileNotFound

/-- C6: when loading an artifact raises an (`Exception`-derived) error, the
script sets `model_loaded = False`, renders an error message that names both
expected artifact files, does not crash, a subsequent predict click is
rejected with the not-found error box without invoking the scaler or the
model of ANY artifact pair (the outcome is the same constant for arbitrary
objects `m`, `s`), and no load is retried (the instrumented loader attempts
each file at most once, and agrees with `load_artifacts`). -/
theorem load_failure_degrades
    (loadFile : String → Except PyExc PyObject) (e : PyExc)
    (m s : PyObject) (r : PredictionRequest)
    (hfail : load_artifacts loadFile = Except.error e)
    (hexc : e.derivesException = true) :
    appInit loadFile = Except.ok ⟨false, none, some (loadErrorMsg e)⟩ ∧
    (∃ a b c : String,
      loadErrorMsg e = a ++ "model.pkl" ++ b ++ "scaler.pkl" ++ c) ∧
    predictStep true false m s r =
      Except.ok (RenderOutcome.errorBox modelNotFoundMsg) ∧
    (load_artifacts_calls loadFile).1.Nodup ∧
    (load_artifacts_calls loadFile).2 = load_artifacts loadFile := by
  refine ⟨?_, ?_, rfl, ?_, ?_⟩
  · unfold appInit; simp [hfail, hexc]
  · refine ⟨"⚠️ Could not load model files: " ++ e.message ++ "\n\nMake sure `",
      "` and `", "` are in the same folder as `app.py`.", ?_⟩
    simp only [loadErrorMsg, String.append_assoc]
    rfl
  · unfold load_artifacts_calls
    rcases h1 : loadFile "model.pkl" with e1 | a1
    · simp
    · rcases h2 : loadFile "scaler.pkl" with e2 | a2 <;> simp
  · unfold load_artifacts_calls load_artifacts
    rcases h1 : loadFile "model.pkl" with e1 | a1
    · rfl
    · rcases h2 : loadFile "scaler.pkl" with e2 | a2 <;> rfl

/-- Witness for C6: every conjunct at the concrete loader for which both
artifact files are missing. -/
theorem load_failure_degrades_witness :
    appInit missingLoad =
      Except.ok ⟨false, none, some (loadErrorMsg fileNotFound)⟩ ∧
    (∃ a b c : String,
      loadErrorMsg fileNotFound = a ++ "model.pkl" ++ b ++ "scaler.pkl" ++ c) ∧
    predictStep true false demoModel demoScaler defaultRequest =
      Except.ok (RenderOutcome.errorBox modelNotFoundMsg) ∧
    (load_artifacts_calls missingLoad).1.Nodup ∧
    (load_artifacts_calls missingLoad).2 = load_artifacts missingLoad :=
  load_failure_degrades missingLoad fileNotFound demoModel demoScaler
    defaultRequest rfl rfl

/-- A concrete `joblib.load` stand-in that deserializes each file to a
distinguishable string, to observe the order of the returned pair. -/
def namedLoad : String → Except PyExc String := fun name =>
  if name = "model.pkl" then
    Except.ok "the object deserialized from model.pkl"
  else if name = "scaler.pkl" then
    Except.ok "the object deserialized from scaler.pkl"
  else
    Except.error fileNotFound

/-- C7 counterexample: `load_artifacts` (lines 150-153) returns
`(model, scaler)` — at a concrete loader the FIRST component of the
returned pair is the object deserialized from `model.pkl` (the model), not
the one from `scaler.pkl` (the scaler), and the two objects differ.  This
refutes the claimed contract `load_artifacts() -> (Scaler, Model)`. -/
theorem load_artifacts_first_component_is_model_cex :
    load_artifacts namedLoad =
      Except.ok ("the object deserialized from model.pkl",
        "the object deserialized from scaler.pkl") ∧
    "the object deserialized from model.pkl" ≠
      "the object deserialized from scaler.pkl" :=
  ⟨rfl, by decide⟩

/-- C7 amended: `load_artifacts` returns the loaded artifacts as a pair
whose FIRST component is the Model (loaded from `model.pkl`) and whose
SECOND component is the Scaler (loaded from `scaler.pkl`); line 156 unpacks
it accordingly as `model, scaler = load_artifacts()`. -/
theorem load_artifacts_returns_model_then_scaler {α : Type}
    (loadFile : String → Except PyExc α) (m s : α)
    (hm : loadFile "model.pkl" = Except.ok m)
    (hs : loadFile "scaler.pkl" = Except.ok s) :
    load_artifacts loadFile = Except.ok (m, s) := by
  unfold load_artifacts
  simp [hm, hs]

/-- Witness for the amended C7, at the concrete naming loader. -/
theorem load_artifacts_returns_model_then_scaler_witness :
    load_artifacts namedLoad =
      Except.ok ("the object deserialized from model.pkl",
        "the object deserialized from scaler.pkl") :=
  load_artifacts_returns_model_then_scaler namedLoad
    "the object deserialized from model.pkl"
    "the object deserialized from scaler.pkl" rfl rfl

/-- C8 counterexample: lines 222-223 sit in no try/except, so when
`scaler.transform` raises, the predict handler's outcome is the raw
propagating exception (`Except.error`), not any rendered "prediction
unavailable" message: at a concrete raising scaler the handler evaluates to
`Except.error schemaError`. -/
theorem scaler_error_propagates_raw_cex :
    predictStep true true demoModel raisingScaler defaultRequest =
      Except.error schemaError := rfl

/-- The exception raised by a concrete model whose `predict` rejects its
input. -/
def predictError : PyExc :=
  { message := "ValueError: Input contains NaN"
    derivesException := true }

/-- A concrete model object whose `predict` always raises. -/
def raisingModel : PyObject :=
  ⟨fun df => Except.ok (df.map (List.map Prod.snd)),
   fun _ => Except.error predictError⟩

/-- C8 amended: an exception raised by `scaler.transform` or
`model.predict` during a predict action is not caught anywhere in the
handler: it propagates out unchanged (so the hosting runtime surfaces the
raw exception), and no "prediction unavailable" message is rendered. -/
theorem predict_errors_propagate_uncaught
    (m s : PyObject) (r : PredictionRequest) (e : PyExc) :
    (s.transform (input_df r) = Except.error e →
      predictStep true true m s r = Except.error e) ∧
    (∀ t, s.transform (input_df r) = Except.ok t →
      m.predict t = Except.error e →
      predictStep true true m s r = Except.error e) := by
  constructor
  · intro hT; unfold predictStep; simp [hT]
  · intro t hT hP; unfold predictStep; simp [hT, hP]

/-- Witness for the amended C8: a concrete raising `model.predict`
propagates its exception out of the handler. -/
theorem predict_errors_propagate_uncaught_witness :
    predictStep true true raisingModel demoScaler defaultRequest =
      Except.error predictError :=
  (predict_errors_propagate_uncaught raisingModel demoScaler defaultRequest
      predictError).2
    ((input_df defaultRequest).map (List.map Prod.snd)) rfl rfl

/-- The `KeyboardInterrupt` exception: it derives from `BaseException`
only, so a Python `except Exception` clause does not match it. -/
def kbInterrupt : PyExc :=
  { message := "KeyboardInterrupt", derivesException := false }

/-- A concrete load during which the user hits Ctrl-C. -/
def interruptedLoad : String → Except PyExc PyObject :=
  fun _ => Except.error kbInterrupt

/-- C10 counterexample: the guard at lines 155-160 is `except Exception`,
which does not catch exceptions deriving only from `BaseException`: a
`KeyboardInterrupt` raised inside `load_artifacts` escapes the guard and
crashes the script run (the init evaluates to `Except.error`, and no
availability flag or error message is produced). -/
theorem init_guard_misses_base_exceptions_cex :
    appInit interruptedLoad = Except.error kbInterrupt := rfl

/-- C10 amended: the artifact-load guard catches every `Exception`-derived
exception raised during loading (missing-file and deserialization errors
included, whatever their type), sets `model_loaded = False`, renders the
error message, and lets no `Exception`-derived failure escape; only
exceptions outside the `Exception` hierarchy (such as `KeyboardInterrupt`)
escape the `except Exception` clause. -/
theorem init_guard_catches_exception_subclasses
    (loadFile : String → Except PyExc PyObject) (e : PyExc)
    (hfail : load_artifacts loadFile = Except.error e)
    (hexc : e.derivesException = true) :
    appInit loadFile = Except.ok ⟨false, none, some (loadErrorMsg e)⟩ := by
  unfold appInit
  simp [hfail, hexc]

/-- Witness for the amended C10, at the concrete loader with both files
missing. -/
theorem init_guard_catches_exception_subclasses_witness :
    appInit missingLoad =
      Except.ok ⟨false, none, some (loadErrorMsg fileNotFound)⟩ :=
  init_guard_catches_exception_subclasses missingLoad fileNotFound rfl rfl
